import Mathlib

/-!
# Verification of the chess_transfer analysis engine

Shallow embedding of `src/chess_tools/analysis/engine.py`: the moment
classifier (`classify_moment`, `_compute_severity`), the decided-position
mercy filter from `analyze_game`, and the tactic pattern classifier
(`classify_tactic` with its helpers `_ray_between`, `_find_absolute_pins`,
`_find_relative_pins`, `_is_back_rank_mate`).

The classifier consumes the external chess rules engine (python-chess) only
through a small interface: piece placement queries, move application
(`push`), attack/attacker queries, `is_pinned`, `is_capture`,
`is_en_passant`, legal move generation and checkmate detection.  The first
section models that interface by the standard rules of chess on an 8x8
board (squares are numbered `rank * 8 + file`, as in python-chess, with
White = `true` moving towards higher ranks).  Castling-move *generation* is
not modelled (castling is never legal while in check, so it cannot affect
checkmate detection, and the classifier's trapped-piece scan only inspects
moves of non-king pieces); the *application* of a castling move by `push`
is modelled, as is en passant and promotion.
-/

namespace ChessTransfer

/-- Piece colors, as in python-chess: `WHITE = true`, `BLACK = false`. -/
abbrev Color := Bool

def WHITE : Color := true

def BLACK : Color := false

/-- The six chess piece types. -/
inductive PieceType where
  | pawn
  | knight
  | bishop
  | rook
  | queen
  | king
deriving DecidableEq

open PieceType

/-- A colored piece occupying a square. -/
structure Piece where
  color : Color
  ptype : PieceType
deriving DecidableEq

/-- A move: source and destination square plus an optional promotion type
(python-chess `Move`). -/
structure Move where
  from_square : Nat
  to_square : Nat
  promotion : Option PieceType
deriving DecidableEq

/-- Board state: piece placement, side to move, en-passant target square.
This is the part of the python-chess `Board` state that the analysis
engine's queries depend on. -/
structure Board where
  placement : Nat → Option Piece
  turn : Color
  ep_square : Option Nat

/-- File index of a square (python-chess `square_file`). -/
def squareFile (sq : Nat) : Int := (sq : Int) % 8

/-- Rank index of a square (python-chess `square_rank`). -/
def squareRank (sq : Nat) : Int := (sq : Int) / 8

/-- Square from file and rank indices (python-chess `square`). -/
def squareOf (f r : Int) : Nat := (8 * r + f).toNat

/-- Piece at a square. -/
def pieceAt (b : Board) (sq : Nat) : Option Piece := b.placement sq

/-- Squares holding a piece of the given type and color (python-chess
`Board.pieces`, as a list of squares in ascending order). -/
def pieces (b : Board) (pt : PieceType) (c : Color) : List Nat :=
  (List.range 64).filter fun sq =>
    match b.placement sq with
    | some p => p.ptype == pt && p.color == c
    | none => false

/-- King square of a color (python-chess `Board.king`: the highest square
holding a king of that color, if any). -/
def kingSq (b : Board) (c : Color) : Option Nat :=
  ((List.range 64).filter fun sq =>
    match b.placement sq with
    | some p => p.ptype == king && p.color == c
    | none => false).getLast?

/-- Walk from `(f, r)` by steps `(sf, sr)` collecting squares until
`(f2, r2)` is reached; fuel bounds the walk (8 always suffices on an 8x8
board). Helper for `ray_between`. -/
def rayWalk (sf sr f2 r2 : Int) : Int → Int → Nat → List Nat
  | _, _, 0 => []
  | f, r, fuel + 1 =>
    if f = f2 ∧ r = r2 then []
    else squareOf f r :: rayWalk sf sr f2 r2 (f + sf) (r + sr) fuel

/-- Translation of `_ray_between` (engine.py): the squares strictly between
two distinct collinear squares, `none` if the squares are not on a common
rank, file or diagonal (or coincide). -/
def ray_between (sq1 sq2 : Nat) : Option (List Nat) :=
  let f1 := squareFile sq1
  let r1 := squareRank sq1
  let f2 := squareFile sq2
  let r2 := squareRank sq2
  let df := f2 - f1
  let dr := r2 - r1
  if df = 0 ∧ dr = 0 then none
  else if df ≠ 0 ∧ dr ≠ 0 ∧ df.natAbs ≠ dr.natAbs then none
  else
    let step_f : Int := if df ≠ 0 then (if 0 < df then 1 else -1) else 0
    let step_r : Int := if dr ≠ 0 then (if 0 < dr then 1 else -1) else 0
    some (rayWalk step_f step_r f2 r2 (f1 + step_f) (r1 + step_r) 8)

/-- Does the piece at `s` attack square `t`?  Standard chess attack
semantics (python-chess `attackers_mask` membership): pawns attack one
square diagonally forward, knights and kings by their offsets, sliders
along their lines with no occupied square strictly between. -/
def attacksSquare (b : Board) (s t : Nat) : Bool :=
  match b.placement s with
  | none => false
  | some p =>
    let df := squareFile t - squareFile s
    let dr := squareRank t - squareRank s
    let rayClear : Bool :=
      match ray_between s t with
      | some ray => ray.all fun x => (b.placement x).isNone
      | none => false
    match p.ptype with
    | pawn => df.natAbs == 1 && dr == (if p.color == WHITE then 1 else -1)
    | knight => (df.natAbs == 1 && dr.natAbs == 2) || (df.natAbs == 2 && dr.natAbs == 1)
    | king => (!(df == 0 && dr == 0)) && df.natAbs ≤ 1 && dr.natAbs ≤ 1
    | bishop => df.natAbs == dr.natAbs && (!(df == 0)) && rayClear
    | rook => ((df == 0 && !(dr == 0)) || (dr == 0 && !(df == 0))) && rayClear
    | queen =>
      ((df == 0 && !(dr == 0)) || (dr == 0 && !(df == 0)) ||
        (df.natAbs == dr.natAbs && !(df == 0))) && rayClear

/-- Squares of pieces of `c` attacking `t` (python-chess `Board.attackers`). -/
def attackers (b : Board) (c : Color) (t : Nat) : List Nat :=
  (List.range 64).filter fun s =>
    (match b.placement s with
     | some p => p.color == c
     | none => false) && attacksSquare b s t

/-- python-chess `Board.is_attacked_by`. -/
def is_attacked_by (b : Board) (c : Color) (t : Nat) : Bool :=
  !(attackers b c t).isEmpty

/-- python-chess `Board.is_check`: the side to move has its king attacked. -/
def is_check (b : Board) : Bool :=
  match kingSq b b.turn with
  | some k => is_attacked_by b (!b.turn) k
  | none => false

/-- python-chess `Board.is_pinned` (via `pin_mask`): `sq` lies on a rank,
file or diagonal through the king of `c`, an enemy slider of the matching
kind sits on that line, and `sq` is the only occupied square strictly
between that slider and the king.  (As in the source, the piece standing
on `sq` itself is not examined.) -/
def is_pinned (b : Board) (c : Color) (sq : Nat) : Bool :=
  match kingSq b c with
  | none => false
  | some k =>
    if sq == k then false
    else
      let straight : Bool := squareFile sq == squareFile k || squareRank sq == squareRank k
      let diag : Bool := (squareFile sq - squareFile k).natAbs == (squareRank sq - squareRank k).natAbs
      if straight || diag then
        (List.range 64).any fun sn =>
          (match b.placement sn with
           | some sp =>
             sp.color == (!c) &&
               (if straight then sp.ptype == rook || sp.ptype == queen
                else sp.ptype == bishop || sp.ptype == queen)
           | none => false) &&
          (match ray_between sn k with
           | some btw => btw.contains sq && btw.all fun x => x == sq || (b.placement x).isNone
           | none => false)
      else false

/-- python-chess `Board.is_en_passant`. -/
def is_en_passant (b : Board) (m : Move) : Bool :=
  (b.ep_square == some m.to_square) &&
  (match b.placement m.from_square with
   | some p => p.ptype == pawn
   | none => false) &&
  (((m.to_square : Int) - (m.from_square : Int)).natAbs == 7 ||
   ((m.to_square : Int) - (m.from_square : Int)).natAbs == 9) &&
  (b.placement m.to_square).isNone

/-- python-chess `Board.is_capture`: the moved-over squares meet opponent
occupancy, or the move is an en passant capture. -/
def is_capture (b : Board) (m : Move) : Bool :=
  let enemyAt : Nat → Bool := fun sq =>
    match b.placement sq with
    | some p => p.color == (!b.turn)
    | none => false
  (if m.from_square == m.to_square then false
   else enemyAt m.from_square || enemyAt m.to_square) || is_en_passant b m

/-- Point update of a placement function. -/
def setAt (pl : Nat → Option Piece) (sq : Nat) (v : Option Piece) : Nat → Option Piece :=
  fun s => if s == sq then v else pl s

/-- python-chess `Board._to_chess960`: rewrite a standard castling move
(king on its home square moving two files) to the king-takes-rook form
used internally by `push`. -/
def convertCastle (b : Board) (m : Move) : Move :=
  let kingAt : Nat → Bool := fun sq =>
    match b.placement sq with
    | some p => p.ptype == king
    | none => false
  if m.from_square == 4 && kingAt 4 then
    if m.to_square == 6 then ⟨4, 7, m.promotion⟩
    else if m.to_square == 2 then ⟨4, 0, m.promotion⟩
    else m
  else if m.from_square == 60 && kingAt 60 then
    if m.to_square == 62 then ⟨60, 63, m.promotion⟩
    else if m.to_square == 58 then ⟨60, 56, m.promotion⟩
    else m
  else m

/-- python-chess `Board.push`, restricted to the state the classifier
observes (placement, side to move, en-passant square): moves the piece on
the source square, performs en passant removal, promotion and castling,
sets the en-passant square on double pawn pushes and flips the turn.
A push from an empty source square (which raises in python-chess and is
never performed by the analysis code on well-formed variations) leaves the
placement unchanged. -/
def push (b : Board) (m0 : Move) : Board :=
  let m := convertCastle b m0
  let oldEp := b.ep_square
  match b.placement m.from_square with
  | none => ⟨b.placement, !b.turn, none⟩
  | some pc =>
    let pl1 := setAt b.placement m.from_square none
    let captured := pl1 m.to_square
    let diff : Int := (m.to_square : Int) - (m.from_square : Int)
    let isPawn : Bool := pc.ptype == pawn
    let newEp : Option Nat :=
      if isPawn && diff == 16 && m.from_square / 8 == 1 then some (m.from_square + 8)
      else if isPawn && diff == -16 && m.from_square / 8 == 6 then some (m.from_square - 8)
      else none
    let epCapture : Bool :=
      isPawn && newEp.isNone && oldEp == some m.to_square &&
        (diff.natAbs == 7 || diff.natAbs == 9) && captured.isNone
    let pl2 :=
      if epCapture then
        setAt pl1 (if b.turn == WHITE then m.to_square - 8 else m.to_square + 8) none
      else pl1
    let finalType := match m.promotion with
      | some pp => pp
      | none => pc.ptype
    let isCastle : Bool :=
      finalType == king &&
        (match pl2 m.to_square with
         | some q => q.color == b.turn
         | none => false)
    let pl3 :=
      if isCastle then
        let aSide : Bool := m.to_square % 8 < m.from_square % 8
        let plA := setAt (setAt pl2 m.from_square none) m.to_square none
        if aSide then
          setAt (setAt plA (if b.turn == WHITE then 2 else 58) (some ⟨b.turn, king⟩))
            (if b.turn == WHITE then 3 else 59) (some ⟨b.turn, rook⟩)
        else
          setAt (setAt plA (if b.turn == WHITE then 6 else 62) (some ⟨b.turn, king⟩))
            (if b.turn == WHITE then 5 else 61) (some ⟨b.turn, rook⟩)
      else setAt pl2 m.to_square (some ⟨b.turn, finalType⟩)
    ⟨pl3, !b.turn, newEp⟩

/-- Pseudo-legal moves of the pawn of color `c` on `sq`: pushes, double
pushes, diagonal captures, with promotions expanded on last-rank moves. -/
def pawnMoves (b : Board) (sq : Nat) (c : Color) : List Move :=
  let r := sq / 8
  let f := sq % 8
  let empty : Nat → Bool := fun x => (b.placement x).isNone
  let enemyAt : Nat → Bool := fun x =>
    match b.placement x with
    | some p => p.color == (!c)
    | none => false
  let singles : List Nat :=
    if c == WHITE then (if r < 7 && empty (sq + 8) then [sq + 8] else [])
    else (if 0 < r && empty (sq - 8) then [sq - 8] else [])
  let doubles : List Nat :=
    if c == WHITE then
      (if r == 1 && empty (sq + 8) && empty (sq + 16) then [sq + 16] else [])
    else
      (if r == 6 && empty (sq - 8) && empty (sq - 16) then [sq - 16] else [])
  let caps : List Nat :=
    if c == WHITE then
      (if 0 < f && r < 7 && enemyAt (sq + 7) then [sq + 7] else []) ++
      (if f < 7 && r < 7 && enemyAt (sq + 9) then [sq + 9] else [])
    else
      (if f < 7 && 0 < r && enemyAt (sq - 7) then [sq - 7] else []) ++
      (if 0 < f && 0 < r && enemyAt (sq - 9) then [sq - 9] else [])
  (singles ++ doubles ++ caps).flatMap fun t =>
    if t / 8 == (if c == WHITE then 7 else 0) then
      [⟨sq, t, some queen⟩, ⟨sq, t, some rook⟩, ⟨sq, t, some bishop⟩, ⟨sq, t, some knight⟩]
    else [⟨sq, t, none⟩]

/-- Pseudo-legal en passant captures (python-chess
`generate_pseudo_legal_ep`): pawns of the side to move on their fifth rank
that attack the (empty) en-passant square. -/
def epMoves (b : Board) : List Move :=
  match b.ep_square with
  | none => []
  | some e =>
    if (b.placement e).isSome then []
    else
      ((List.range 64).filter fun sq =>
        (match b.placement sq with
         | some p =>
           p.color == b.turn && p.ptype == pawn &&
             sq / 8 == (if b.turn == WHITE then 4 else 3)
         | none => false) && attacksSquare b sq e).map fun sq => ⟨sq, e, none⟩

/-- Pseudo-legal moves of the side to move: non-pawn pieces move to the
squares they attack that are not occupied by their own side; pawns move as
in `pawnMoves`; en passant captures are added.  (Castling-move generation
is omitted, see the module docstring.) -/
def pseudoLegalMoves (b : Board) : List Move :=
  ((List.range 64).flatMap fun sq =>
    match b.placement sq with
    | some p =>
      if p.color == b.turn then
        if p.ptype == pawn then pawnMoves b sq p.color
        else
          ((List.range 64).filter fun t =>
            attacksSquare b sq t &&
              (match b.placement t with
               | some q => !(q.color == b.turn)
               | none => true)).map fun t => ⟨sq, t, none⟩
      else []
    | none => []) ++ epMoves b

/-- Legal moves: pseudo-legal moves after which the mover's king is not
attacked (python-chess `generate_legal_moves`; positions without a king
place no legality constraint, as in the source). -/
def legalMoves (b : Board) : List Move :=
  (pseudoLegalMoves b).filter fun m =>
    let b2 := push b m
    match kingSq b2 b.turn with
    | some k => !(is_attacked_by b2 (!b.turn) k)
    | none => true

/-- python-chess `Board.is_checkmate`. -/
def is_checkmate (b : Board) : Bool :=
  is_check b && (legalMoves b).isEmpty

/-- Build a board from a placement association list. -/
def mkBoard (l : List (Nat × Piece)) (turn : Color) (ep : Option Nat) : Board :=
  ⟨fun sq => (l.find? fun e => e.1 == sq).map (·.2), turn, ep⟩

/-! ## engine.py: constants and the moment classifier -/

def BLUNDER_CP : Int := 200

def DECIDED_POSITION_CP : Int := 500

def MISSED_CHANCE_CP : Int := 200

def WINNING_THRESHOLD : Int := 200

def MISSED_MATE_MOVES : Int := 5

def SEVERITY_CRITICAL_CP : Nat := 500

def SEVERITY_MAJOR_CP : Nat := 300

/-- engine.py `PIECE_VALUES`. -/
def PIECE_VALUES : PieceType → Nat
  | pawn => 1
  | knight => 3
  | bishop => 3
  | rook => 5
  | queen => 9
  | king => 100

/-- engine.py `_compute_severity`: severity tier from the absolute eval
swing magnitude. -/
def compute_severity (eval_swing : Int) : String :=
  let magnitude := eval_swing.natAbs
  if SEVERITY_CRITICAL_CP ≤ magnitude then "critical"
  else if SEVERITY_MAJOR_CP ≤ magnitude then "major"
  else "minor"

/-- The missed-mate guard of `classify_moment`: `best_mate_in is not None
and best_mate_in <= 5 and best_mate_in > 0 and played_mate_in is None`. -/
def missed_mate_cond (best_mate_in played_mate_in : Option Int) : Bool :=
  match best_mate_in with
  | none => false
  | some m => decide (m ≤ MISSED_MATE_MOVES) && decide (0 < m) && played_mate_in.isNone

/-- engine.py `classify_moment`: moment type and severity, or `none` when
the ply is not flagged. -/
def classify_moment (best_eval played_eval : Int)
    (best_mate_in played_mate_in : Option Int) : Option (String × String) :=
  if missed_mate_cond best_mate_in played_mate_in then
    some ("missed_mate", compute_severity (best_eval - played_eval))
  else if BLUNDER_CP ≤ best_eval - played_eval ∧ played_eval < -100 then
    some ("blunder", compute_severity (best_eval - played_eval))
  else if MISSED_CHANCE_CP ≤ best_eval - played_eval ∧ WINNING_THRESHOLD ≤ best_eval ∧
      -100 ≤ played_eval then
    some ("missed_chance", compute_severity (best_eval - played_eval))
  else none

/-- The decided-position mercy filter inlined in `analyze_game`:
`is_decided_before and is_decided_after and same_result`. -/
def suppress_decided (cp_before cp_after : Int) : Bool :=
  decide (DECIDED_POSITION_CP < (cp_before).natAbs) &&
  decide (DECIDED_POSITION_CP < (cp_after).natAbs) &&
  ((decide (0 < cp_before) && decide (0 < cp_after)) ||
   (decide (cp_before < 0) && decide (cp_after < 0)))

/-- The per-ply filter-then-classify sequence of `analyze_game`: a ply in a
decided position is skipped (`continue`) before `classify_moment` runs. -/
def moment_for_ply (cp_before cp_after : Int)
    (best_mate_in played_mate_in : Option Int) : Option (String × String) :=
  if suppress_decided cp_before cp_after then none
  else classify_moment cp_before cp_after best_mate_in played_mate_in

/-! ## engine.py: tactic classifier helpers -/

/-- Push a list of moves in order; fails (as python-chess `push` raises,
caught by `_is_back_rank_mate`) when a move starts from an empty square. -/
def pushList (b : Board) (ms : List Move) : Option Board :=
  ms.foldl
    (fun ob m => ob.bind fun bb =>
      if (bb.placement m.from_square).isSome then some (push bb m) else none)
    (some b)

/-- engine.py `_is_back_rank_mate`: simulate the mate line from `board`;
true when every move applies, the final position is checkmate and the
mated side's king stands on its home back rank. -/
def is_back_rank_mate (board : Board) (mate_pv : List Move) (mover_color : Color) : Bool :=
  match pushList board mate_pv with
  | none => false
  | some sim =>
    if !is_checkmate sim then false
    else
      match kingSq sim mover_color with
      | none => false
      | some k => squareRank k == (if mover_color == WHITE then 0 else 7)

/-- engine.py `_find_absolute_pins`: squares of `color`'s non-king pieces
pinned to their king. -/
def find_absolute_pins (b : Board) (color : Color) : List Nat :=
  (List.range 64).filter fun sq =>
    (match b.placement sq with
     | some p => p.color == color && !(p.ptype == king)
     | none => false) && is_pinned b color sq

/-- First occupied square's piece strictly beyond `tgt` on the ray from
`sq` through `tgt`, walking by the file/rank steps as in the behind-scan
loops of `_find_relative_pins` and the skewer detector. -/
def behindWalk (b : Board) (sf sr : Int) : Int → Int → Nat → Option Piece
  | _, _, 0 => none
  | f, r, fuel + 1 =>
    if 0 ≤ f ∧ f ≤ 7 ∧ 0 ≤ r ∧ r ≤ 7 then
      match b.placement (squareOf f r) with
      | some p => some p
      | none => behindWalk b sf sr (f + sf) (r + sr) fuel
    else none

/-- The behind-scan shared by `_find_relative_pins` and the skewer block:
step direction from `sq` towards `tgt`, then the first piece strictly
beyond `tgt`. -/
def behind_first_hit (b : Board) (sq tgt : Nat) : Option Piece :=
  let df := squareFile tgt - squareFile sq
  let dr := squareRank tgt - squareRank sq
  let step_f : Int := if df ≠ 0 then (if 0 < df then 1 else -1) else 0
  let step_r : Int := if dr ≠ 0 then (if 0 < dr then 1 else -1) else 0
  behindWalk b step_f step_r (squareFile tgt + step_f) (squareRank tgt + step_r) 8

/-- engine.py `_find_relative_pins`: squares of `victim_color` pieces
through which a `pinner_color` slider attacks (on an unobstructed
`_ray_between` ray) a strictly more valuable `victim_color` piece that is
the first piece behind them. -/
def find_relative_pins (b : Board) (pinner_color victim_color : Color) : List Nat :=
  (List.range 64).filter fun front_sq =>
    match b.placement front_sq with
    | some fp =>
      fp.color == victim_color && !(fp.ptype == king) &&
      ((List.range 64).any fun slider_sq =>
        (match b.placement slider_sq with
         | some sp =>
           sp.color == pinner_color &&
             (sp.ptype == bishop || sp.ptype == rook || sp.ptype == queen)
         | none => false) &&
        (match ray_between slider_sq front_sq with
         | some ray =>
           ray.all (fun s => (b.placement s).isNone) &&
           (match behind_first_hit b slider_sq front_sq with
            | some bp =>
              bp.color == victim_color &&
                decide (PIECE_VALUES fp.ptype < PIECE_VALUES bp.ptype)
            | none => false)
         | none => false))
    | none => false

/-- Nonempty set difference used by the pin checks of `classify_tactic`
(`abs_pins_after - abs_pins_before` truthiness). -/
def newPins (after before : List Nat) : Bool :=
  after.any fun s => !(before.contains s)

/-- The `mate_in is not None and mate_in <= 9` guard of `classify_tactic`. -/
def mateInLE9 : Option Int → Bool
  | none => false
  | some m => decide (m ≤ 9)

/-- Whether `pt` is a sliding piece type, as tested by the skewer block
(`piece_type in (chess.BISHOP, chess.ROOK, chess.QUEEN)`). -/
def is_slider_type (pt : PieceType) : Bool :=
  pt == bishop || pt == rook || pt == queen

/-- Step 2 of `classify_tactic` (the skewer block): the moved piece is a
slider and, from its destination, some mover-owned queen/rook/
bishop/knight lies on an unobstructed `_ray_between` ray whose first piece
behind is mover-owned with value at most the front piece's, the moved
piece being worth at least a rook. -/
def skewerStep (board_after board_copy : Board) (first_move : Move)
    (mover_color : Color) : Bool :=
  (board_after.placement first_move.from_square).any fun mp =>
    is_slider_type mp.ptype &&
    ([queen, rook, bishop, knight].any fun pt =>
      (pieces board_copy pt mover_color).any fun target_sq =>
        (ray_between first_move.to_square target_sq).any fun ray =>
          (!ray.any fun s => (board_copy.placement s).isSome) &&
          ((behind_first_hit board_copy first_move.to_square target_sq).any fun bp =>
            bp.color == mover_color &&
              decide (PIECE_VALUES bp.ptype ≤ PIECE_VALUES pt) &&
              decide (5 ≤ PIECE_VALUES mp.ptype)))

/-- Step 4a of `classify_tactic`: discovered check — the mover's king is
in check, and the checkers do not include the refutation move's
destination square. -/
def discoveredCheckStep (board_copy : Board) (first_move : Move)
    (mover_color : Color) : Bool :=
  is_check board_copy &&
  (match kingSq board_copy mover_color with
   | some k =>
     let checkers := attackers board_copy (!mover_color) k
     !(checkers.contains first_move.to_square) && !checkers.isEmpty
   | none => false)

/-- Step 4b of `classify_tactic`: a mover-owned queen or rook gained a new
attacker (other than the moved piece's destination square). -/
def discoveredHvpStep (board_after board_copy : Board) (first_move : Move)
    (mover_color : Color) : Bool :=
  [queen, rook].any fun hvp_type =>
    (pieces board_copy hvp_type mover_color).any fun hvp_sq =>
      let new_attackers :=
        ((attackers board_copy (!mover_color) hvp_sq).filter fun s =>
          !((attackers board_after (!mover_color) hvp_sq).contains s)).filter fun s =>
            !(s == first_move.to_square)
      !new_attackers.isEmpty

/-- Steps 5 and 6 of `classify_tactic` (hanging piece/pawn and losing
exchange): `some label` when the capture block returns, `none` when it
falls through to the fork detector. -/
def hangingStep (board_after : Board) (first_move : Move)
    (mover_color : Color) : Option String :=
  if is_capture board_after first_move then
    if (board_after.placement first_move.to_square).isNone &&
        is_en_passant board_after first_move then some "hanging_pawn"
    else if (board_after.placement first_move.to_square).isNone &&
        first_move.promotion.isSome then some "hanging_piece"
    else
      (board_after.placement first_move.to_square).bind fun cp =>
        if cp.color == mover_color then
          if cp.ptype == pawn then some "hanging_pawn"
          else if is_attacked_by board_after mover_color first_move.to_square then
            (if (board_after.placement first_move.from_square).any fun ap =>
                decide (PIECE_VALUES cp.ptype < PIECE_VALUES ap.ptype)
             then some "losing_exchange"
             else some "hanging_piece")
          else some "hanging_piece"
        else none
  else none

/-- Step 7 of `classify_tactic`: fork by the moved piece — it attacks at
least two mover-owned queens/rooks/knights/bishops/kings, at least one of
which it did not attack from its origin square. -/
def forkStep (board_after board_copy : Board) (first_move : Move)
    (mover_color : Color) : Bool :=
  (board_after.placement first_move.from_square).isSome &&
  (let fork_types : List PieceType := [queen, rook, knight, bishop, king]
   let attacked_now := (List.range 64).filter fun sq =>
     (match board_copy.placement sq with
      | some p => p.color == mover_color && fork_types.contains p.ptype
      | none => false) &&
     (attackers board_copy (!mover_color) sq).contains first_move.to_square
   let attacked_before := (List.range 64).filter fun sq =>
     (match board_after.placement sq with
      | some p => p.color == mover_color && fork_types.contains p.ptype
      | none => false) &&
     (attackers board_after (!mover_color) sq).contains first_move.from_square
   let new_targets := attacked_now.filter fun s => !(attacked_before.contains s)
   decide (2 ≤ attacked_now.length) && decide (1 ≤ new_targets.length))

/-- Step 8 of `classify_tactic`: a mover-owned queen/rook/bishop/knight is
attacked and has no legal move to a safe square nor a capture of a piece
worth at least as much. -/
def trappedStep (board_copy : Board) (mover_color : Color) : Bool :=
  [queen, rook, bishop, knight].any fun pt =>
    (pieces board_copy pt mover_color).any fun sq =>
      is_attacked_by board_copy (!mover_color) sq &&
      !((legalMoves board_copy).any fun legal =>
        legal.from_square == sq &&
        (!(is_attacked_by (push board_copy legal) (!mover_color) legal.to_square) ||
         (match board_copy.placement legal.to_square with
          | some dp => decide (PIECE_VALUES pt ≤ PIECE_VALUES dp.ptype)
          | none => false)))

/-- Steps 4-9 of `classify_tactic` (everything after the pin checks). -/
def tail_after_pin (board_after board_copy : Board) (first_move : Move)
    (mover_color : Color) : String :=
  if discoveredCheckStep board_copy first_move mover_color then "discovered_attack"
  else if discoveredHvpStep board_after board_copy first_move mover_color then
    "discovered_attack"
  else
    (hangingStep board_after first_move mover_color).getD
      (if forkStep board_after board_copy first_move mover_color then "fork"
       else if trappedStep board_copy mover_color then "trapped_piece"
       else "positional")

/-- engine.py `classify_tactic`: one tactic label via the strict detector
chain (forced mate, skewer, newly created pins, discovered attack, hanging
piece/pawn and losing exchange, fork, trapped piece, positional, unknown). -/
def classify_tactic (board_after : Board) (refutation_pv : List Move)
    (mate_in : Option Int) (mover_color : Color) (board_before : Option Board) : String :=
  if mateInLE9 mate_in then
    if (!refutation_pv.isEmpty) && is_back_rank_mate board_after refutation_pv mover_color
    then "back_rank_mate"
    else "forced_mate"
  else
    (refutation_pv.head?.map fun first_move =>
      if skewerStep board_after (push board_after first_move) first_move mover_color then
        "skewer"
      else if newPins (find_absolute_pins (push board_after first_move) mover_color)
          (find_absolute_pins (board_before.getD board_after) mover_color) then "pin"
      else if newPins
          (find_relative_pins (push board_after first_move) (!mover_color) mover_color)
          (find_relative_pins (board_before.getD board_after) (!mover_color) mover_color)
          then "pin"
      else tail_after_pin board_after (push board_after first_move) first_move
        mover_color).getD "unknown"

/-- The combined newly-created-pin condition of `classify_tactic` steps 3:
either the absolute-pin set or the relative-pin set gains a square when
moving from the reference before-board (the optional `board_before`
argument, defaulting to `board_after`) to the position after the first
refutation move. -/
def pin_growth (board_after : Board) (board_before : Option Board) (first_move : Move)
    (mover_color : Color) : Bool :=
  newPins (find_absolute_pins (push board_after first_move) mover_color)
      (find_absolute_pins (board_before.getD board_after) mover_color) ||
  newPins (find_relative_pins (push board_after first_move) (!mover_color) mover_color)
      (find_relative_pins (board_before.getD board_after) (!mover_color) mover_color)

/-! ## Spec-side formalisations (for refinement comparison)

The skewer sentence of the spec is formalised separately from the code's
detector so the two can be compared: `skewer_spec_claim` follows the
claim's words (front piece value at most the back piece's), while
`skewer_spec_amended` is the claim with the two corrections the code
forces (front piece restricted to knight/bishop/rook/queen, and front
value at least the back value).  Both use genuine attack semantics
(`slider_attacks`): the moved slider must attack the front piece along a
ray of its own movement kind. -/

/-- True sliding attack of a piece of type `pt` from `s` to `t`: collinear
along a line the piece moves on, with every square strictly between
empty. -/
def slider_attacks (b : Board) (pt : PieceType) (s t : Nat) : Bool :=
  let df := squareFile t - squareFile s
  let dr := squareRank t - squareRank s
  (match pt with
   | rook => (df == 0 && !(dr == 0)) || (dr == 0 && !(df == 0))
   | bishop => df.natAbs == dr.natAbs && !(df == 0)
   | queen =>
     (df == 0 && !(dr == 0)) || (dr == 0 && !(df == 0)) ||
       (df.natAbs == dr.natAbs && !(df == 0))
   | _ => false) &&
  ((ray_between s t).any fun ray => ray.all fun x => (b.placement x).isNone)

/-- The skewer condition exactly as the claim states it: the moved piece
is a slider worth at least a rook and, after the move, attacks along an
unobstructed ray through a mover-owned piece whose first piece behind is
also mover-owned and worth at least as much as the front piece (front
value at most back value). -/
def skewer_spec_claim (board_after : Board) (first_move : Move) (mover_color : Color) : Bool :=
  (board_after.placement first_move.from_square).any fun mp =>
    is_slider_type mp.ptype &&
    ((List.range 64).any fun front_sq =>
      ((push board_after first_move).placement front_sq).any fun fp =>
        fp.color == mover_color &&
        slider_attacks (push board_after first_move) mp.ptype first_move.to_square front_sq &&
        ((behind_first_hit (push board_after first_move) first_move.to_square front_sq).any
          fun bp =>
            bp.color == mover_color &&
              decide (PIECE_VALUES fp.ptype ≤ PIECE_VALUES bp.ptype) &&
              decide (5 ≤ PIECE_VALUES mp.ptype)))

/-- The skewer condition as amended to match the code: front piece among
knight/bishop/rook/queen, front value at least the back value.
Structured over the same piece enumeration as the detector, with the
genuine-attack strengthening `slider_attacks`. -/
def skewer_spec_amended (board_after : Board) (first_move : Move) (mover_color : Color) : Bool :=
  (board_after.placement first_move.from_square).any fun mp =>
    is_slider_type mp.ptype &&
    ([queen, rook, bishop, knight].any fun pt =>
      (pieces (push board_after first_move) pt mover_color).any fun target_sq =>
        slider_attacks (push board_after first_move) mp.ptype first_move.to_square target_sq &&
        ((behind_first_hit (push board_after first_move) first_move.to_square target_sq).any
          fun bp =>
            bp.color == mover_color &&
              decide (PIECE_VALUES bp.ptype ≤ PIECE_VALUES pt) &&
              decide (5 ≤ PIECE_VALUES mp.ptype)))

/-! ## Concrete positions used by witnesses and counterexamples

Squares are `rank * 8 + file`: a1 = 0, e1 = 4, g1 = 6, f2 = 13, g2 = 14,
h2 = 15, c4 = 26, d4 = 27, a5 = 32, e5 = 36, g5 = 38, f6 = 45, h7 = 55,
a8 = 56, e8 = 60, f8 = 61, g8 = 62, h8 = 63. -/

/-- White Kg1, Pf2, Pg2, Ph2; Black Ra1, Kh8; White to move: White is
checkmated on its back rank (a completed back-rank mate). -/
def bMateDone : Board := mkBoard
  [(6, ⟨WHITE, king⟩), (13, ⟨WHITE, pawn⟩), (14, ⟨WHITE, pawn⟩), (15, ⟨WHITE, pawn⟩),
   (0, ⟨BLACK, rook⟩), (63, ⟨BLACK, king⟩)] WHITE none

/-- White Kg1, Pf2, Pg2, Ph2; Black Ra5, Kh8; Black to move: Ra5-a1 is a
back-rank mate in one. -/
def bPreMate : Board := mkBoard
  [(6, ⟨WHITE, king⟩), (13, ⟨WHITE, pawn⟩), (14, ⟨WHITE, pawn⟩), (15, ⟨WHITE, pawn⟩),
   (32, ⟨BLACK, rook⟩), (63, ⟨BLACK, king⟩)] BLACK none

/-- Kings only; used for the degenerate empty-variation calls. -/
def bKingsOnly : Board := mkBoard
  [(4, ⟨WHITE, king⟩), (60, ⟨BLACK, king⟩)] WHITE none

/-- White Ke1, Ne5, Qg5; Black Ra8, Kh8; Black to move.  After Ra8-a5 the
rook attacks the knight on e5 with the queen directly behind on g5:
front value 3 ≤ back value 9, so the claim's skewer condition holds, but
the code requires front ≥ back. -/
def bSkewClaim : Board := mkBoard
  [(4, ⟨WHITE, king⟩), (36, ⟨WHITE, knight⟩), (38, ⟨WHITE, queen⟩),
   (56, ⟨BLACK, rook⟩), (63, ⟨BLACK, king⟩)] BLACK none

/-- White Ke1, Qe5, Ng5; Black Ra8, Kh8; Black to move.  After Ra8-a5 the
rook attacks the queen on e5 with the knight behind on g5: a genuine
skewer (front 9 ≥ back 3). -/
def bSkewCode : Board := mkBoard
  [(4, ⟨WHITE, king⟩), (36, ⟨WHITE, queen⟩), (38, ⟨WHITE, knight⟩),
   (56, ⟨BLACK, rook⟩), (63, ⟨BLACK, king⟩)] BLACK none

/-- White Ke1, Ne5; Black Re8, Kh8; Black to move.  The knight on e5 is
already absolutely pinned by the rook on e8; the refutation move Kh8-h7
does not change any pin. -/
def bPinKept : Board := mkBoard
  [(4, ⟨WHITE, king⟩), (36, ⟨WHITE, knight⟩), (60, ⟨BLACK, rook⟩), (63, ⟨BLACK, king⟩)]
  BLACK none

/-- The position one hero move before `bPinKept`: White Ke1, Nc4 (the
knight has not yet blocked on e5); Black Re8, Kh8; White to move.  No
white piece is pinned here. -/
def bPinPred : Board := mkBoard
  [(4, ⟨WHITE, king⟩), (26, ⟨WHITE, knight⟩), (60, ⟨BLACK, rook⟩), (63, ⟨BLACK, king⟩)]
  WHITE none

/-- White Ke1, Ne5; Black Rf8, Kh8; Black to move.  The refutation move
Rf8-e8 newly pins the knight on e5 to the king. -/
def bPinNew : Board := mkBoard
  [(4, ⟨WHITE, king⟩), (36, ⟨WHITE, knight⟩), (61, ⟨BLACK, rook⟩), (63, ⟨BLACK, king⟩)]
  BLACK none

/-- White Kg1, Nd4; Black Bf6, Kg8; Black to move.  Bf6xd4 captures an
undefended knight of equal value. -/
def bHangKnight : Board := mkBoard
  [(6, ⟨WHITE, king⟩), (27, ⟨WHITE, knight⟩), (45, ⟨BLACK, bishop⟩), (62, ⟨BLACK, king⟩)]
  BLACK none

/-! ## Helper lemmas -/

/-- The capture block of `classify_tactic` returns nothing or one of its
three labels. -/
lemma hangingStep_cases (ba : Board) (m : Move) (c : Color) :
    hangingStep ba m c = none ∨ hangingStep ba m c = some "hanging_pawn" ∨
    hangingStep ba m c = some "hanging_piece" ∨ hangingStep ba m c = some "losing_exchange" := by
  unfold hangingStep
  cases hct : ba.placement m.to_square with
  | none =>
    split_ifs <;>
      first
        | exact Or.inl rfl
        | exact Or.inr (Or.inl rfl)
        | exact Or.inr (Or.inr (Or.inl rfl))
  | some cp =>
    simp only [Option.bind]
    split_ifs <;>
      first
        | exact Or.inl rfl
        | exact Or.inr (Or.inl rfl)
        | exact Or.inr (Or.inr (Or.inl rfl))
        | exact Or.inr (Or.inr (Or.inr rfl))

/-- The labels the post-pin tail of `classify_tactic` can produce. -/
lemma tail_after_pin_mem (ba bc : Board) (m : Move) (c : Color) :
    tail_after_pin ba bc m c ∈
      (["discovered_attack", "hanging_pawn", "hanging_piece", "losing_exchange",
        "fork", "trapped_piece", "positional"] : List String) := by
  unfold tail_after_pin
  rcases hangingStep_cases ba m c with h | h | h | h <;> rw [h] <;> split_ifs <;> decide

/-- When the forced-mate rule does not fire, `classify_tactic` never
produces a mate label. -/
lemma classify_tactic_nonmate_ne (ba : Board) (pv : List Move) (mi : Option Int)
    (mover : Color) (bb : Option Board) (hm : mateInLE9 mi = false) :
    classify_tactic ba pv mi mover bb ≠ "forced_mate" ∧
    classify_tactic ba pv mi mover bb ≠ "back_rank_mate" := by
  unfold classify_tactic
  rw [hm]
  simp only [Bool.false_eq_true, if_false]
  cases pv with
  | nil =>
    simp only [List.head?_nil, Option.map_none', Option.getD_none]
    refine ⟨?_, ?_⟩ <;> decide
  | cons f rest =>
    simp only [List.head?_cons, Option.map_some', Option.getD_some]
    split_ifs with h1 h2 h3
    · refine ⟨?_, ?_⟩ <;> decide
    · refine ⟨?_, ?_⟩ <;> decide
    · refine ⟨?_, ?_⟩ <;> decide
    · have hmem := tail_after_pin_mem ba (push ba f) f mover
      constructor <;> intro he <;> rw [he] at hmem <;> exact absurd hmem (by decide)

/-- When the forced-mate rule does not fire and the pin checks fail,
`classify_tactic` never returns the pin label. -/
lemma tail_after_pin_ne_pin (ba bc : Board) (m : Move) (c : Color) :
    tail_after_pin ba bc m c ≠ "pin" := by
  have hmem := tail_after_pin_mem ba bc m c
  intro he
  rw [he] at hmem
  exact absurd hmem (by decide)

/-- Monotonicity of `List.any` under a pointwise implication. -/
lemma any_imp {α : Type} {p q : α → Bool} {l : List α}
    (h : ∀ a, a ∈ l → p a = true → q a = true) (hp : l.any p = true) : l.any q = true := by
  rcases List.any_eq_true.mp hp with ⟨a, hma, hpa⟩
  exact List.any_eq_true.mpr ⟨a, hma, h a hma hpa⟩

/-- The amended skewer condition implies the code's skewer detector. -/
lemma skewer_amended_implies_step (ba : Board) (mv : Move) (mover : Color)
    (hc : skewer_spec_amended ba mv mover = true) :
    skewerStep ba (push ba mv) mv mover = true := by
  unfold skewer_spec_amended at hc
  unfold skewerStep
  cases hp : ba.placement mv.from_square with
  | none => rw [hp] at hc; simp at hc
  | some mp =>
    rw [hp] at hc
    simp only [Option.any] at hc ⊢
    simp only [Bool.and_eq_true] at hc ⊢
    obtain ⟨hsl, hany⟩ := hc
    refine ⟨hsl, ?_⟩
    refine any_imp (fun pt hptmem hpt => ?_) hany
    refine any_imp (fun target htm hti => ?_) hpt
    beta_reduce
    simp only [Bool.and_eq_true] at hti
    obtain ⟨hsa, hbh⟩ := hti
    unfold slider_attacks at hsa
    simp only [Bool.and_eq_true] at hsa
    obtain ⟨hgeom, hray⟩ := hsa
    cases hr : ray_between mv.to_square target with
    | none =>
      rw [hr] at hray
      simp only [Option.any] at hray
      exact absurd hray (by decide)
    | some ray =>
      rw [hr] at hray
      simp only [Option.any] at hray
      simp only []
      have hnone : (ray.any fun s => ((push ba mv).placement s).isSome) = false := by
        rw [Bool.eq_false_iff]
        intro hanyr
        rcases List.any_eq_true.mp hanyr with ⟨x, hx, hsome⟩
        have hn := List.all_eq_true.mp hray x hx
        rw [Option.isNone_iff_eq_none] at hn
        rw [hn] at hsome
        exact absurd hsome (by simp)
      rw [Bool.and_eq_true, hnone]
      exact ⟨rfl, hbh⟩

/-! ## Claims about the moment classifier and the mercy filter -/

/-- C4 (confirmed): in a decided position — both evaluations above 500 in
magnitude with the same sign — the mercy filter suppresses the ply before
moment classification, so no moment is flagged; at exactly 500 the
position is not considered decided. -/
theorem C4_theorem (cp_before cp_after : Int) (bm pm : Option Int) :
    (500 < cp_before.natAbs → 500 < cp_after.natAbs →
      ((0 < cp_before ∧ 0 < cp_after) ∨ (cp_before < 0 ∧ cp_after < 0)) →
      moment_for_ply cp_before cp_after bm pm = none) ∧
    (cp_before.natAbs = 500 ∨ cp_after.natAbs = 500 →
      suppress_decided cp_before cp_after = false) := by
  constructor
  · intro h1 h2 h3
    have hs : suppress_decided cp_before cp_after = true := by
      unfold suppress_decided DECIDED_POSITION_CP
      simp only [Bool.and_eq_true, Bool.or_eq_true, decide_eq_true_eq]
      refine ⟨⟨by omega, by omega⟩, ?_⟩
      rcases h3 with ⟨ha, hb⟩ | ⟨ha, hb⟩
      · exact Or.inl ⟨ha, hb⟩
      · exact Or.inr ⟨ha, hb⟩
    unfold moment_for_ply
    rw [hs]
    simp
  · intro h
    rw [Bool.eq_false_iff]
    intro hc
    unfold suppress_decided DECIDED_POSITION_CP at hc
    simp only [Bool.and_eq_true, Bool.or_eq_true, decide_eq_true_eq] at hc
    omega

/-- C4 witness: a concrete decided ply is suppressed, and a boundary value
of exactly 500 is not considered decided. -/
theorem C4_witness :
    moment_for_ply 600 700 none none = none ∧ suppress_decided 500 800 = false :=
  ⟨(C4_theorem 600 700 none none).1 (by decide) (by decide) (Or.inl ⟨by decide, by decide⟩),
   (C4_theorem 500 800 none none).2 (Or.inl (by decide))⟩

/-- Shape of `classify_moment` when the missed-mate rule does not apply. -/
lemma classify_moment_of_not_mate (be pe : Int) (bm pm : Option Int)
    (h : missed_mate_cond bm pm = false) :
    classify_moment be pe bm pm =
      (if 200 ≤ be - pe ∧ pe < -100 then some ("blunder", compute_severity (be - pe))
       else if 200 ≤ be - pe ∧ 200 ≤ be ∧ -100 ≤ pe then
         some ("missed_chance", compute_severity (be - pe))
       else none) := by
  unfold classify_moment BLUNDER_CP MISSED_CHANCE_CP WINNING_THRESHOLD
  rw [h]
  simp

/-- C5 (confirmed): with the missed-mate rule not applying, the result is
Blunder exactly when at least 200 centipawns were lost and the position
became worse than -100; otherwise MissedChance exactly when at least 200
centipawns were lost from a position of at least +200 without dropping
below -100; otherwise the ply is not flagged.  The spec's two concrete
examples are included. -/
theorem C5_theorem (be pe : Int) (bm pm : Option Int)
    (h : missed_mate_cond bm pm = false) :
    (((classify_moment be pe bm pm).map Prod.fst = some "blunder") ↔
      (200 ≤ be - pe ∧ pe < -100)) ∧
    (¬(200 ≤ be - pe ∧ pe < -100) →
      (((classify_moment be pe bm pm).map Prod.fst = some "missed_chance") ↔
        (200 ≤ be - pe ∧ 200 ≤ be ∧ -100 ≤ pe))) ∧
    (¬(200 ≤ be - pe ∧ pe < -100) → ¬(200 ≤ be - pe ∧ 200 ≤ be ∧ -100 ≤ pe) →
      classify_moment be pe bm pm = none) ∧
    (classify_moment 0 (-300) none none).map Prod.fst = some "blunder" ∧
    (classify_moment 300 100 none none).map Prod.fst = some "missed_chance" := by
  rw [classify_moment_of_not_mate be pe bm pm h]
  refine ⟨?_, ?_, ?_, by decide, by decide⟩
  · split_ifs with h1 h2
    · simp [h1]
    · simp [h1]
    · simp [h1]
  · intro hnb
    rw [if_neg hnb]
    split_ifs with h2
    · simp [h2]
    · simp [h2]
  · intro hnb hnc
    rw [if_neg hnb, if_neg hnc]

/-- C5 witness: the blunder characterisation applied at the spec's
concrete example. -/
theorem C5_witness :
    (classify_moment 0 (-300) none none).map Prod.fst = some "blunder" :=
  (C5_theorem 0 (-300) none none (by decide)).1.mpr ⟨by decide, by decide⟩

/-- C9 (confirmed): the attached severity of any flagged moment is
computed from the absolute swing magnitude alone — critical at 500 or
more, major from 300 up to 500, minor below 300 — with the three concrete
magnitude examples. -/
theorem C9_theorem (be pe : Int) (bm pm : Option Int) (t s : String)
    (h : classify_moment be pe bm pm = some (t, s)) :
    s = compute_severity (be - pe) ∧
    (500 ≤ (be - pe).natAbs → s = "critical") ∧
    (300 ≤ (be - pe).natAbs ∧ (be - pe).natAbs < 500 → s = "major") ∧
    ((be - pe).natAbs < 300 → s = "minor") ∧
    compute_severity 600 = "critical" ∧ compute_severity 350 = "major" ∧
    compute_severity 200 = "minor" := by
  have hs : s = compute_severity (be - pe) := by
    unfold classify_moment at h
    split_ifs at h <;> simp_all
  subst hs
  refine ⟨rfl, ?_, ?_, ?_, rfl, rfl, rfl⟩
  · intro h5
    unfold compute_severity SEVERITY_CRITICAL_CP
    rw [if_pos h5]
  · intro h3
    unfold compute_severity SEVERITY_CRITICAL_CP SEVERITY_MAJOR_CP
    rw [if_neg (by omega), if_pos (by omega)]
  · intro h0
    unfold compute_severity SEVERITY_CRITICAL_CP SEVERITY_MAJOR_CP
    rw [if_neg (by omega), if_neg (by omega)]

/-- C9 witness: the severity attached to the concrete blunder example is
the severity of its swing. -/
theorem C9_witness : ("major" : String) = compute_severity ((0 : Int) - (-300)) :=
  (C9_theorem 0 (-300) none none "blunder" "major" (by decide)).1

/-- C10 (confirmed): the missed-mate classification ignores the centipawn
evaluations — any mate-in-m with 0 < m ≤ 5 and no played mate yields
MissedMate for every pair of evaluations — while the severity still comes
from the swing, so a missed mate with swing magnitude below 300 carries
severity Minor. -/
theorem C10_theorem (be pe m : Int) (h1 : 0 < m) (h2 : m ≤ 5) :
    classify_moment be pe (some m) none = some ("missed_mate", compute_severity (be - pe)) ∧
    ((be - pe).natAbs < 300 →
      classify_moment be pe (some m) none = some ("missed_mate", "minor")) := by
  have hc : missed_mate_cond (some m) none = true := by
    unfold missed_mate_cond MISSED_MATE_MOVES
    simp only [Option.isNone_none, Bool.and_true, Bool.and_eq_true, decide_eq_true_eq]
    exact ⟨h2, h1⟩
  constructor
  · unfold classify_moment
    rw [hc]
    simp
  · intro h3
    unfold classify_moment
    rw [hc]
    simp only [if_true]
    unfold compute_severity SEVERITY_CRITICAL_CP SEVERITY_MAJOR_CP
    rw [if_neg (by omega), if_neg (by omega)]

/-- C10 witness: a missed mate in 3 with a negative swing (the played
evaluation exceeds the best one) is still MissedMate, with severity
Minor. -/
theorem C10_witness :
    classify_moment 100 150 (some 3) none = some ("missed_mate", "minor") :=
  (C10_theorem 100 150 3 (by decide) (by decide)).2 (by decide)

/-- C3 counterexample: with `played_mate_in` present but nonpositive
(value 0), the code's `played_mate_in is None` test fails, so the
missed-mate rule does not fire and the result is MissedChance, not the
MissedMate the claim requires. -/
theorem C3_counterexample :
    (classify_moment 1000 0 (some 3) (some 0)).map Prod.fst ≠ some "missed_mate" := by
  decide

/-- C3 (corrected): with `best_mate_in` positive and at most 5 and
`played_mate_in` absent, the result is MissedMate regardless of the
evaluations (so the rule precedes Blunder and MissedChance). -/
theorem C3_theorem (be pe m : Int) (h1 : 0 < m) (h2 : m ≤ 5) :
    (classify_moment be pe (some m) none).map Prod.fst = some "missed_mate" := by
  have hc : missed_mate_cond (some m) none = true := by
    unfold missed_mate_cond MISSED_MATE_MOVES
    simp only [Option.isNone_none, Bool.and_true, Bool.and_eq_true, decide_eq_true_eq]
    exact ⟨h2, h1⟩
  unfold classify_moment
  rw [hc]
  simp

/-- C3 witness: the spec's concrete missed-mate example. -/
theorem C3_witness :
    (classify_moment 10000 200 (some 3) none).map Prod.fst = some "missed_mate" :=
  C3_theorem 10000 200 3 (by decide) (by decide)

/-! ## Claims about the tactic classifier -/

/-- C7 counterexample: with an empty refutation line but a mate distance
of 3, the forced-mate rule fires first, so the result is ForcedMate, not
the Unknown required by the claim for every empty-PV call. -/
theorem C7_counterexample :
    classify_tactic bKingsOnly [] (some 3) WHITE none ≠ "unknown" := by
  decide

/-- C7 (corrected): with an empty refutation line and the forced-mate
rule not firing (`mate_in` absent or above 9), the result is Unknown. -/
theorem C7_theorem (b : Board) (mi : Option Int) (mover : Color) (bb : Option Board)
    (hm : mateInLE9 mi = false) :
    classify_tactic b [] mi mover bb = "unknown" := by
  unfold classify_tactic
  rw [hm]
  simp

/-- C7 witness: an empty refutation line with no mate distance yields
Unknown. -/
theorem C7_witness : classify_tactic bKingsOnly [] none WHITE none = "unknown" :=
  C7_theorem bKingsOnly none WHITE none rfl

/-- C6 counterexample: on a board that is already a completed back-rank
mate, with an empty refutation line and `mate_in = 0`, simulating the
(empty) line ends in checkmate with the mated king on its home rank, yet
the code returns ForcedMate because the back-rank test is skipped for an
empty PV. -/
theorem C6_counterexample :
    is_back_rank_mate bMateDone [] WHITE = true ∧
    classify_tactic bMateDone [] (some 0) WHITE none = "forced_mate" := by
  refine ⟨by decide, by decide⟩

/-- C6 (corrected): with `mate_in` at most 9, the result is BackRankMate
exactly when the refutation line is non-empty and simulating it ends in
checkmate with the mated side's king on its home back rank, and
ForcedMate otherwise; with `mate_in` of 10 or more the mate rule does not
fire and neither mate label is produced. -/
theorem C6_theorem (b : Board) (pv : List Move) (mi : Int) (mover : Color) (bb : Option Board) :
    (mi ≤ 9 →
      (classify_tactic b pv (some mi) mover bb = "back_rank_mate" ↔
        (pv ≠ [] ∧ is_back_rank_mate b pv mover = true)) ∧
      (classify_tactic b pv (some mi) mover bb = "back_rank_mate" ∨
        classify_tactic b pv (some mi) mover bb = "forced_mate")) ∧
    (9 < mi →
      classify_tactic b pv (some mi) mover bb ≠ "forced_mate" ∧
      classify_tactic b pv (some mi) mover bb ≠ "back_rank_mate") := by
  constructor
  · intro h9
    have hm : mateInLE9 (some mi) = true := by
      unfold mateInLE9
      simpa using h9
    unfold classify_tactic
    rw [hm]
    simp only [if_true]
    constructor
    · by_cases hcond : ((!pv.isEmpty) && is_back_rank_mate b pv mover) = true
      · rw [if_pos hcond]
        simp only [Bool.and_eq_true, Bool.not_eq_true'] at hcond
        obtain ⟨hne, hbr⟩ := hcond
        constructor
        · intro _
          refine ⟨?_, hbr⟩
          intro he
          rw [he] at hne
          exact absurd hne (by decide)
        · intro _
          rfl
      · rw [if_neg hcond]
        constructor
        · intro he
          exact absurd he (by decide)
        · rintro ⟨hne, hbr⟩
          exfalso
          apply hcond
          simp only [Bool.and_eq_true, Bool.not_eq_true']
          refine ⟨?_, hbr⟩
          cases pv with
          | nil => exact absurd rfl hne
          | cons f rest => rfl
    · by_cases hcond : ((!pv.isEmpty) && is_back_rank_mate b pv mover) = true
      · rw [if_pos hcond]
        exact Or.inl rfl
      · rw [if_neg hcond]
        exact Or.inr rfl
  · intro h9
    have hm : mateInLE9 (some mi) = false := by
      unfold mateInLE9
      simp only [decide_eq_false_iff_not]
      omega
    exact classify_tactic_nonmate_ne b pv (some mi) mover bb hm

/-- C6 witness: a one-move back-rank mate is labelled BackRankMate when
`mate_in = 1`, and the same position with `mate_in = 12` is not given a
mate label. -/
theorem C6_witness :
    classify_tactic bPreMate [⟨32, 0, none⟩] (some 1) WHITE none = "back_rank_mate" ∧
    classify_tactic bPreMate [⟨32, 0, none⟩] (some 12) WHITE none ≠ "forced_mate" :=
  ⟨((C6_theorem bPreMate [⟨32, 0, none⟩] 1 WHITE none).1 (by decide)).1.mpr
      ⟨by decide, by decide⟩,
   ((C6_theorem bPreMate [⟨32, 0, none⟩] 12 WHITE none).2 (by decide)).1⟩

/-- C2 counterexample: a call with the optional `board_before` argument
supplied.  The knight on e5 is pinned both before and after the
refutation move Kh8-h7 (`pin_growth` with the default reference board is
false, so no pin is newly created by the refutation move), the skewer
detector does not match and no mate applies, yet the result is Pin
because the code compares against the supplied `board_before`, in which
the knight stood unpinned on c4. -/
theorem C2_counterexample :
    skewerStep bPinKept (push bPinKept ⟨63, 55, none⟩) ⟨63, 55, none⟩ WHITE = false ∧
    pin_growth bPinKept none ⟨63, 55, none⟩ WHITE = false ∧
    classify_tactic bPinKept [⟨63, 55, none⟩] none WHITE (some bPinPred) = "pin" := by
  refine ⟨by decide, by decide, by decide⟩

/-- C2 (corrected): with no mate applying, a piece on the refutation
move's source square and the skewer detector not matching, the Pin label
is returned exactly when the absolute- or relative-pin set of the mover
grows from the reference before-position — the `board_before` argument
when supplied, otherwise the position immediately before the first
refutation move — to the position after the first refutation move.  In
particular, when a new pin appears the result is Pin even if the move
also captures a mover-owned pawn. -/
theorem C2_theorem (board_after : Board) (board_before : Option Board) (first_move : Move)
    (rest : List Move) (mi : Option Int) (mover : Color)
    (hm : mateInLE9 mi = false)
    (hmv : (board_after.placement first_move.from_square).isSome = true)
    (hs : skewerStep board_after (push board_after first_move) first_move mover = false) :
    classify_tactic board_after (first_move :: rest) mi mover board_before = "pin" ↔
      pin_growth board_after board_before first_move mover = true := by
  unfold classify_tactic pin_growth
  rw [hm]
  simp only [Bool.false_eq_true, if_false, List.head?_cons, Option.map_some', Option.getD_some]
  rw [hs]
  simp only [Bool.false_eq_true, if_false]
  cases ha : newPins (find_absolute_pins (push board_after first_move) mover)
      (find_absolute_pins (board_before.getD board_after) mover) with
  | true => simp [ha]
  | false =>
    simp only [if_false, Bool.false_or, Bool.false_eq_true]
    cases hr : newPins (find_relative_pins (push board_after first_move) (!mover) mover)
        (find_relative_pins (board_before.getD board_after) (!mover) mover) with
    | true => simp [hr]
    | false =>
      simp only [if_false, Bool.false_eq_true]
      have hne := tail_after_pin_ne_pin board_after (push board_after first_move) first_move mover
      simp [hne]

/-- C2 witness: the refutation move Rf8-e8 newly pins the knight on e5,
and the call (with no `board_before`) returns Pin. -/
theorem C2_witness :
    classify_tactic bPinNew [⟨61, 60, none⟩] none WHITE none = "pin" :=
  (C2_theorem bPinNew none ⟨61, 60, none⟩ [] none WHITE rfl (by decide) (by decide)).mpr
    (by decide)

/-- C1 counterexample: after Ra8-a5 the black rook attacks the white
knight on e5 through to the white queen on g5 — front value 3 is at most
back value 9, the attacker is worth a rook, so the claim's skewer
condition holds — yet the code (which requires front value at least back
value) classifies the position as Pin. -/
theorem C1_counterexample :
    skewer_spec_claim bSkewClaim ⟨56, 32, none⟩ WHITE = true ∧
    classify_tactic bSkewClaim [⟨56, 32, none⟩] none WHITE none ≠ "skewer" := by
  refine ⟨by decide, by decide⟩

/-- C1 (corrected): with no mate applying, if the moved piece is a slider
worth at least a rook and, after the refutation move, genuinely attacks
along a ray of its movement kind a mover-owned knight, bishop, rook or
queen whose first piece behind is mover-owned and worth at most the front
piece (front value at least back value), the result is Skewer. -/
theorem C1_theorem (board_after : Board) (first_move : Move) (rest : List Move)
    (mi : Option Int) (mover : Color) (bb : Option Board)
    (hm : mateInLE9 mi = false)
    (hc : skewer_spec_amended board_after first_move mover = true) :
    classify_tactic board_after (first_move :: rest) mi mover bb = "skewer" := by
  have hstep := skewer_amended_implies_step board_after first_move mover hc
  unfold classify_tactic
  rw [hm]
  simp only [Bool.false_eq_true, if_false, List.head?_cons, Option.map_some', Option.getD_some]
  rw [hstep]
  simp

/-- C1 witness: after Ra8-a5 the rook attacks the white queen on e5 with
the knight on g5 behind it (front 9, back 3): a genuine skewer, labelled
Skewer. -/
theorem C1_witness :
    classify_tactic bSkewCode [⟨56, 32, none⟩] none WHITE none = "skewer" :=
  C1_theorem bSkewCode ⟨56, 32, none⟩ [] none WHITE none rfl (by decide)

/-- C8 (confirmed): when no earlier detector matches (no forced mate, no
skewer, no new pin, no discovered attack) and the first refutation move
captures a mover-owned piece — the piece `ap` standing on its source
square — the label is HangingPawn if the captured piece is a pawn (en
passant captures, with an empty destination square, capture a pawn);
otherwise LosingExchange when the capture square was defended by the
mover and the capturing piece's value strictly exceeds the captured
piece's; otherwise HangingPiece. -/
theorem C8_theorem (board_after : Board) (board_before : Option Board) (first_move : Move)
    (rest : List Move) (mi : Option Int) (mover : Color) (ap : Piece)
    (hm : mateInLE9 mi = false)
    (hs : skewerStep board_after (push board_after first_move) first_move mover = false)
    (hpg : pin_growth board_after board_before first_move mover = false)
    (hdc : discoveredCheckStep (push board_after first_move) first_move mover = false)
    (hdh : discoveredHvpStep board_after (push board_after first_move) first_move mover = false)
    (hcap : is_capture board_after first_move = true)
    (ha : board_after.placement first_move.from_square = some ap)
    (hown : ∀ cp, board_after.placement first_move.to_square = some cp → cp.color = mover)
    (hep : board_after.placement first_move.to_square = none →
      is_en_passant board_after first_move = true) :
    classify_tactic board_after (first_move :: rest) mi mover board_before =
      (match board_after.placement first_move.to_square with
       | some cp =>
         if cp.ptype = pawn then "hanging_pawn"
         else if is_attacked_by board_after mover first_move.to_square = true ∧
             PIECE_VALUES cp.ptype < PIECE_VALUES ap.ptype then "losing_exchange"
         else "hanging_piece"
       | none => "hanging_pawn") := by
  unfold classify_tactic
  rw [hm]
  simp only [Bool.false_eq_true, if_false, List.head?_cons, Option.map_some', Option.getD_some]
  rw [hs]
  simp only [Bool.false_eq_true, if_false]
  have hp2 := hpg
  unfold pin_growth at hp2
  rw [Bool.or_eq_false_iff] at hp2
  obtain ⟨hpa, hpr⟩ := hp2
  rw [hpa]
  simp only [Bool.false_eq_true, if_false]
  rw [hpr]
  simp only [Bool.false_eq_true, if_false]
  unfold tail_after_pin
  rw [hdc]
  simp only [Bool.false_eq_true, if_false]
  rw [hdh]
  simp only [Bool.false_eq_true, if_false]
  unfold hangingStep
  rw [if_pos hcap]
  cases hct : board_after.placement first_move.to_square with
  | none =>
    rw [if_pos ?hcond1]
    case hcond1 =>
      rw [hep hct]
      rfl
    rw [Option.getD_some]
  | some cp =>
    rw [if_neg (by simp), if_neg (by simp)]
    simp only [Option.bind]
    have hcol := hown cp hct
    rw [if_pos ?hcol2]
    case hcol2 =>
      simp [hcol]
    by_cases hpawn : cp.ptype = pawn
    · rw [if_pos (by simp [hpawn]), Option.getD_some, if_pos hpawn]
    · rw [if_neg (by simp [hpawn])]
      by_cases hatk : is_attacked_by board_after mover first_move.to_square = true
      · rw [if_pos hatk, ha]
        simp only [Option.any]
        by_cases hv : PIECE_VALUES cp.ptype < PIECE_VALUES ap.ptype
        · rw [if_pos (by simpa using hv), Option.getD_some, if_neg hpawn,
            if_pos ⟨hatk, hv⟩]
        · rw [if_neg (by simpa using hv), Option.getD_some, if_neg hpawn,
            if_neg fun hx => hv hx.2]
      · rw [if_neg hatk, Option.getD_some, if_neg hpawn, if_neg fun hx => hatk hx.1]

/-- C8 witness: a bishop captures an equal-value undefended knight with
every earlier detector failing; the label is HangingPiece. -/
theorem C8_witness :
    classify_tactic bHangKnight [⟨45, 27, none⟩] none WHITE none = "hanging_piece" := by
  have h := C8_theorem bHangKnight none ⟨45, 27, none⟩ [] none WHITE ⟨BLACK, bishop⟩
    rfl (by decide) (by decide) (by decide) (by decide) (by decide) (by decide)
    (by intro cp hcp; injection hcp with h2; rw [← h2]) (by intro hn; exact absurd hn (by decide))
  exact h.trans (by decide)

end ChessTransfer
